import Mathlib

/-!
Shallow embedding of `src/glm_image_ui.py` (GLM-Image web UI):
the request-to-inference orchestration layer of an image-generation
service.  Pure data flow from the Python source is translated into
executable Lean definitions; the external collaborators (the diffusion
pipeline `pipe`, PIL's decoder `Image.open`, the `convert("RGB")`
normalizer and PIL's PNG serializer `image.save(format="PNG")`) are
taken as function parameters, exactly as the source treats them as
opaque callables.  Exceptions are modelled with `Except`; Python's
`try/except` blocks become explicit matches on the `Except` value, and
each handler additionally returns the list of calls made into the
model so that "the model is never invoked" is a provable statement.
-/

namespace GlmImageUI

/-- An in-memory raster image (PIL `Image.Image`), opaque token. -/
structure Img where
  val : Nat
deriving DecidableEq, Repr

/-- A raster image as decoded by `Image.open`, before `convert("RGB")`. -/
structure RawImage where
  val : Nat
deriving DecidableEq, Repr

/-- An uploaded file: its fully buffered byte contents (`await file.read()`). -/
structure UploadFile where
  contents : List (Fin 256)
deriving DecidableEq, Repr

/-- A `torch.Generator`: the device it is bound to and the seed set by
`manual_seed`. -/
structure TorchGenerator where
  device : String
  seed : Int
deriving DecidableEq, Repr

/-- One call into the shared pipeline `pipe(...)`: the keyword arguments
of the source's invocation (`image` is present only in the
image-to-image variant). -/
structure ModelCall where
  prompt : String
  image : Option (List Img)
  height : Int
  width : Int
  num_inference_steps : Int
  guidance_scale : Rat
  generator : Option TorchGenerator
deriving DecidableEq, Repr

/-- `fastapi.HTTPException`: a numeric status code and a detail message. -/
structure HTTPException where
  status_code : Nat
  detail : String
deriving DecidableEq, Repr

/-- The Python exceptions that flow through the handlers: `ValueError`,
`HTTPException`, and any other exception (e.g. one raised inside the
model call), carrying its message. -/
inductive PyExc where
  | valueError (msg : String)
  | httpError (e : HTTPException)
  | otherExc (msg : String)
deriving DecidableEq, Repr

/-- Python's `str(e)` on an exception.  `ValueError` and generic
exceptions stringify to their message; Starlette's `HTTPException`
stringifies as `"<status_code>: <detail>"`. -/
def PyExc.msg : PyExc → String
  | .valueError m => m
  | .httpError e => toString e.status_code ++ ": " ++ e.detail
  | .otherExc m => m

/-- The black-box pipeline behaviour: a call either produces one image
(`result.images[0]`) or raises an exception with some message. -/
def Pipe : Type := ModelCall → Except String Img

/-- The JSON success envelope `{"image": ..., "status": "success"}`. -/
structure APIResponse where
  image : String
  status : String
deriving DecidableEq, Repr

/-- The compute device the model is loaded onto:
`GlmImagePipeline.from_pretrained(..., device_map="cuda")`. -/
def model_device : String := "cuda"

/-- Line 67/111 of the source:
`generator = torch.Generator(device="cuda").manual_seed(seed) if seed >= 0 else None`. -/
def resolve_generator (seed : Int) : Option TorchGenerator :=
  if seed ≥ 0 then some ⟨"cuda", seed⟩ else none

/-- Python's `str.strip()`: remove leading and trailing whitespace. -/
def pyStrip (s : String) : String :=
  String.mk
    (((s.data.dropWhile Char.isWhitespace).reverse.dropWhile
        Char.isWhitespace).reverse)

/-- Python's `not prompt or not prompt.strip()`: the prompt is empty or
whitespace-only. -/
def prompt_blank (prompt : String) : Prop :=
  prompt = "" ∨ pyStrip prompt = ""

instance (prompt : String) : Decidable (prompt_blank prompt) := by
  unfold prompt_blank; infer_instance

/-- Python's `images is None or len(images) == 0` in `image_to_image`. -/
def images_missing (images : Option (List Img)) : Bool :=
  match images with
  | none => true
  | some l => l.length == 0

/-- The 503 exception raised when the global `pipe` is still `None`. -/
def notLoadedExc : HTTPException :=
  ⟨503, "Model is not loaded yet. Please wait for the model to finish loading."⟩

/-- `result = pipe(...)` followed by `image = result.images[0]`: one call
into the pipeline, recorded in the trace; an exception raised inside the
pipeline surfaces as a generic exception. -/
def runPipe (pipe : Pipe) (call : ModelCall) : Except PyExc Img × List ModelCall :=
  match pipe call with
  | .ok img => (.ok img, [call])
  | .error m => (.error (.otherExc m), [call])

/-- The `except Exception as e: raise HTTPException(500, f"Error generating
image: {str(e)}")` handler shared by `text_to_image` and `image_to_image`
(lines 83-86 and 128-131).  Note that it also catches the
`HTTPException(503)` raised inside the `try` block, because FastAPI's
`HTTPException` is a subclass of `Exception`. -/
def wrapGenError (r : Except PyExc Img × List ModelCall) :
    Except PyExc Img × List ModelCall :=
  match r with
  | (.ok img, calls) => (.ok img, calls)
  | (.error e, calls) =>
    (.error (.httpError ⟨500, "Error generating image: " ++ e.msg⟩), calls)

/-- The body of the `try` block of `text_to_image` (lines 59-81):
validate the prompt, check the model handle, resolve the generator,
call the pipeline once.  Returns the outcome together with the list of
model calls performed. -/
def text_to_image_body (pipeOpt : Option Pipe) (prompt : String)
    (height width num_inference_steps : Int) (guidance_scale : Rat)
    (seed : Int) : Except PyExc Img × List ModelCall :=
  if prompt_blank prompt then
    (.error (.valueError "Please enter a prompt"), [])
  else
    match pipeOpt with
    | none => (.error (.httpError notLoadedExc), [])
    | some pipe =>
      runPipe pipe
        ⟨prompt, none, height, width, num_inference_steps, guidance_scale,
         resolve_generator seed⟩

/-- `text_to_image` (lines 48-86): the `try` body wrapped in the blanket
`except Exception` handler. -/
def text_to_image (pipeOpt : Option Pipe) (prompt : String)
    (height width num_inference_steps : Int) (guidance_scale : Rat)
    (seed : Int) : Except PyExc Img × List ModelCall :=
  wrapGenError
    (text_to_image_body pipeOpt prompt height width num_inference_steps
      guidance_scale seed)

/-- The body of the `try` block of `image_to_image` (lines 100-126). -/
def image_to_image_body (pipeOpt : Option Pipe) (images : Option (List Img))
    (prompt : String) (height width num_inference_steps : Int)
    (guidance_scale : Rat) (seed : Int) : Except PyExc Img × List ModelCall :=
  if images_missing images then
    (.error (.valueError "Please upload at least one image"), [])
  else if prompt_blank prompt then
    (.error (.valueError "Please enter a prompt"), [])
  else
    match pipeOpt with
    | none => (.error (.httpError notLoadedExc), [])
    | some pipe =>
      runPipe pipe
        ⟨prompt, images, height, width, num_inference_steps, guidance_scale,
         resolve_generator seed⟩

/-- `image_to_image` (lines 88-131): the `try` body wrapped in the same
blanket `except Exception` handler as `text_to_image`. -/
def image_to_image (pipeOpt : Option Pipe) (images : Option (List Img))
    (prompt : String) (height width num_inference_steps : Int)
    (guidance_scale : Rat) (seed : Int) : Except PyExc Img × List ModelCall :=
  wrapGenError
    (image_to_image_body pipeOpt images prompt height width
      num_inference_steps guidance_scale seed)

/-- The base64 alphabet of RFC 4648, as used by Python's
`base64.b64encode`. -/
def base64Alphabet : List Char :=
  "ABCDEFGHIJKLMNOPQRSTUVWXYZabcdefghijklmnopqrstuvwxyz0123456789+/".toList

/-- The base64 digit for a 6-bit value. -/
def b64Char (n : Nat) : Char := base64Alphabet.getD n 'A'

/-- Python's `base64.b64encode` on a byte list (standard alphabet,
`=` padding). -/
def base64Encode : List (Fin 256) → String
  | [] => ""
  | [b1] =>
    String.mk [b64Char (b1.val / 4), b64Char (b1.val % 4 * 16), '=', '=']
  | [b1, b2] =>
    String.mk [b64Char (b1.val / 4), b64Char (b1.val % 4 * 16 + b2.val / 16),
               b64Char (b2.val % 16 * 4), '=']
  | b1 :: b2 :: b3 :: rest =>
    String.mk [b64Char (b1.val / 4), b64Char (b1.val % 4 * 16 + b2.val / 16),
               b64Char (b2.val % 16 * 4 + b3.val / 64), b64Char (b3.val % 64)]
      ++ base64Encode rest

/-- Position of a character in the base64 alphabet (the inverse of
`b64Char`), scanning from index `i`. -/
def b64IndexAux (c : Char) : List Char → Nat → Option Nat
  | [], _ => none
  | a :: rest, i => if a = c then some i else b64IndexAux c rest (i + 1)

/-- Position of a character in the base64 alphabet. -/
def b64Index (c : Char) : Option Nat := b64IndexAux c base64Alphabet 0

/-- First byte recovered from two base64 sextets. -/
def b64Byte1 (i1 i2 : Nat) : Fin 256 :=
  ⟨(i1 * 4 + i2 / 16) % 256, Nat.mod_lt _ (by norm_num)⟩

/-- Second byte recovered from two base64 sextets. -/
def b64Byte2 (i2 i3 : Nat) : Fin 256 :=
  ⟨(i2 % 16 * 16 + i3 / 4) % 256, Nat.mod_lt _ (by norm_num)⟩

/-- Third byte recovered from two base64 sextets. -/
def b64Byte3 (i3 i4 : Nat) : Fin 256 :=
  ⟨(i3 % 4 * 64 + i4) % 256, Nat.mod_lt _ (by norm_num)⟩

/-- Base64 decoding of a character list (RFC 4648, standard alphabet,
`=` padding), the inverse of `base64Encode`. -/
def base64DecodeChars : List Char → Option (List (Fin 256))
  | [] => some []
  | c1 :: c2 :: c3 :: c4 :: rest =>
    match b64Index c1, b64Index c2 with
    | some i1, some i2 =>
      if c3 = '=' ∧ c4 = '=' then
        if rest = [] then some [b64Byte1 i1 i2] else none
      else if c4 = '=' then
        match b64Index c3 with
        | some i3 =>
          if rest = [] then some [b64Byte1 i1 i2, b64Byte2 i2 i3] else none
        | none => none
      else
        match b64Index c3, b64Index c4 with
        | some i3, some i4 =>
          match base64DecodeChars rest with
          | some bs => some (b64Byte1 i1 i2 :: b64Byte2 i2 i3 :: b64Byte3 i3 i4 :: bs)
          | none => none
        | _, _ => none
    | _, _ => none
  | _ => none

/-- `image_to_base64` (lines 133-138): serialize the image to PNG bytes
(`image.save(buffered, format="PNG")`, the external PIL serializer
passed as `pngSave`), base64-encode them, and prepend the data-URI
prefix. -/
def image_to_base64 (pngSave : Img → List (Fin 256)) (image : Img) : String :=
  "data:image/png;base64," ++ base64Encode (pngSave image)

/-- The pydantic request model `TextToImageRequest` (lines 39-45). -/
structure TextToImageRequest where
  prompt : String
  height : Int
  width : Int
  num_inference_steps : Int
  guidance_scale : Rat
  seed : Int
deriving DecidableEq, Repr

/-- A `TextToImageRequest` in which every optional field is omitted, so
pydantic fills the declared defaults (lines 41-45). -/
def TextToImageRequest.withDefaults (prompt : String) : TextToImageRequest :=
  ⟨prompt, 32 * 32, 36 * 32, 50, 1.5, 42⟩

/-- The endpoint-level envelope shared by both API routes: on success
`JSONResponse({"image": ..., "status": "success"})`, with
`except HTTPException: raise` re-raising HTTP exceptions as they are and
`except Exception as e: raise HTTPException(500, str(e))` converting
anything else. -/
def apiWrap (pngSave : Img → List (Fin 256))
    (r : Except PyExc Img × List ModelCall) :
    Except PyExc APIResponse × List ModelCall :=
  match r with
  | (.ok img, calls) => (.ok ⟨image_to_base64 pngSave img, "success"⟩, calls)
  | (.error (.httpError e), calls) => (.error (.httpError e), calls)
  | (.error e, calls) => (.error (.httpError ⟨500, e.msg⟩), calls)

/-- `api_text_to_image` (lines 794-811): call `text_to_image` with the
request's fields and wrap the outcome in the endpoint envelope. -/
def api_text_to_image (pngSave : Img → List (Fin 256)) (pipeOpt : Option Pipe)
    (req : TextToImageRequest) : Except PyExc APIResponse × List ModelCall :=
  apiWrap pngSave
    (text_to_image pipeOpt req.prompt req.height req.width
      req.num_inference_steps req.guidance_scale req.seed)

/-- The file-processing loop of `api_image_to_image` (lines 825-830):
each uploaded file's bytes are decoded (`Image.open`, the external
`decode`) and normalized (`convert("RGB")`, the external `toRGB`), in
upload order; the first decode failure aborts the loop. -/
def process_files (decode : List (Fin 256) → Except String RawImage)
    (toRGB : RawImage → Img) : List UploadFile → Except String (List Img)
  | [] => .ok []
  | f :: rest =>
    match decode f.contents with
    | .error e => .error e
    | .ok raw =>
      match process_files decode toRGB rest with
      | .error e => .error e
      | .ok imgs => .ok (toRGB raw :: imgs)

/-- `api_image_to_image` (lines 813-846): decode the uploads, call
`image_to_image`, encode the result; a decode failure is caught by the
endpoint's `except Exception` and becomes a 500. -/
def api_image_to_image (pngSave : Img → List (Fin 256))
    (decode : List (Fin 256) → Except String RawImage) (toRGB : RawImage → Img)
    (pipeOpt : Option Pipe) (files : List UploadFile) (prompt : String)
    (height width num_inference_steps : Int) (guidance_scale : Rat)
    (seed : Int) : Except PyExc APIResponse × List ModelCall :=
  match process_files decode toRGB files with
  | .error e => (.error (.httpError ⟨500, e⟩), [])
  | .ok pil_images =>
    apiWrap pngSave
      (image_to_image pipeOpt (some pil_images) prompt height width
        num_inference_steps guidance_scale seed)

/-- `api_image_to_image` invoked with every optional form field omitted,
so FastAPI fills the declared `Form` defaults (lines 817-821). -/
def api_image_to_image_withDefaults (pngSave : Img → List (Fin 256))
    (decode : List (Fin 256) → Except String RawImage) (toRGB : RawImage → Img)
    (pipeOpt : Option Pipe) (files : List UploadFile) (prompt : String) :
    Except PyExc APIResponse × List ModelCall :=
  api_image_to_image pngSave decode toRGB pipeOpt files prompt 1056 1024 50 1.5 42

/-! ### Shared lemmas about the embedded handlers -/

/-- A pipeline call is recorded exactly once in the trace. -/
theorem runPipe_snd (pipe : Pipe) (call : ModelCall) :
    (runPipe pipe call).2 = [call] := by
  unfold runPipe
  cases pipe call <;> rfl

/-- The generation-error handler does not touch the call trace. -/
theorem wrapGenError_snd (r : Except PyExc Img × List ModelCall) :
    (wrapGenError r).2 = r.2 := by
  rcases r with ⟨r1, calls⟩
  cases r1 <;> rfl

/-- The endpoint envelope does not touch the call trace. -/
theorem apiWrap_snd (pngSave : Img → List (Fin 256))
    (r : Except PyExc Img × List ModelCall) :
    (apiWrap pngSave r).2 = r.2 := by
  rcases r with ⟨r1, calls⟩
  cases r1 with
  | ok img => rfl
  | error e => cases e <;> rfl

/-- Every error leaving the endpoint envelope is an `HTTPException`. -/
theorem apiWrap_error_httpError (pngSave : Img → List (Fin 256))
    (r : Except PyExc Img × List ModelCall) (e : PyExc)
    (h : (apiWrap pngSave r).1 = .error e) :
    ∃ he : HTTPException, e = .httpError he := by
  rcases r with ⟨r1, calls⟩
  cases r1 with
  | ok img => simp [apiWrap] at h
  | error pe =>
    cases pe with
    | valueError m =>
      refine ⟨⟨500, m⟩, ?_⟩
      simpa [apiWrap, PyExc.msg] using h.symm
    | httpError he =>
      refine ⟨he, ?_⟩
      simpa [apiWrap] using h.symm
    | otherExc m =>
      refine ⟨⟨500, m⟩, ?_⟩
      simpa [apiWrap, PyExc.msg] using h.symm

/-- A prompt whose stripped form is non-empty passes the source's
`not prompt or not prompt.strip()` check. -/
theorem not_prompt_blank_of_strip {s : String} (h : pyStrip s ≠ "") :
    ¬ prompt_blank s := by
  rintro (rfl | hb)
  · exact h (by decide)
  · exact h hb

/-- A non-empty image list passes the source's
`images is None or len(images) == 0` check. -/
theorem images_missing_eq_false {imgs : List Img} (h : imgs ≠ []) :
    images_missing (some imgs) = false := by
  cases imgs with
  | nil => exact absurd rfl h
  | cons a rest => rfl

/-- With a loaded pipeline and a valid prompt, `text_to_image` makes
exactly one model call, with all parameters passed through unchanged. -/
theorem text_to_image_calls (pipe : Pipe) (prompt : String)
    (height width num_inference_steps : Int) (guidance_scale : Rat)
    (seed : Int) (hp : ¬ prompt_blank prompt) :
    (text_to_image (some pipe) prompt height width num_inference_steps
        guidance_scale seed).2 =
      [⟨prompt, none, height, width, num_inference_steps, guidance_scale,
        resolve_generator seed⟩] := by
  unfold text_to_image
  rw [wrapGenError_snd]
  unfold text_to_image_body
  rw [if_neg hp]
  exact runPipe_snd _ _

/-- With a loaded pipeline, a non-empty image list and a valid prompt,
`image_to_image` makes exactly one model call, with all parameters
passed through unchanged. -/
theorem image_to_image_calls (pipe : Pipe) (imgs : List Img)
    (prompt : String) (height width num_inference_steps : Int)
    (guidance_scale : Rat) (seed : Int) (hp : ¬ prompt_blank prompt)
    (hi : imgs ≠ []) :
    (image_to_image (some pipe) (some imgs) prompt height width
        num_inference_steps guidance_scale seed).2 =
      [⟨prompt, some imgs, height, width, num_inference_steps,
        guidance_scale, resolve_generator seed⟩] := by
  unfold image_to_image
  rw [wrapGenError_snd]
  unfold image_to_image_body
  rw [images_missing_eq_false hi]
  simp only [Bool.false_eq_true, if_false]
  rw [if_neg hp]
  exact runPipe_snd _ _

/-- When every upload decodes, `api_image_to_image` reduces to the
wrapped `image_to_image` call on the decoded list. -/
theorem api_image_to_image_of_decoded (pngSave : Img → List (Fin 256))
    (decode : List (Fin 256) → Except String RawImage) (toRGB : RawImage → Img)
    (pipeOpt : Option Pipe) (files : List UploadFile)
    (imgs : List Img) (prompt : String)
    (height width num_inference_steps : Int) (guidance_scale : Rat)
    (seed : Int) (hd : process_files decode toRGB files = .ok imgs) :
    api_image_to_image pngSave decode toRGB pipeOpt files prompt height
        width num_inference_steps guidance_scale seed =
      apiWrap pngSave
        (image_to_image pipeOpt (some imgs) prompt height width
          num_inference_steps guidance_scale seed) := by
  unfold api_image_to_image
  rw [hd]

/-! ### The base64 encoder is a faithful encoder: decoding inverts it -/

/-- `b64Index` inverts `b64Char` on 6-bit values. -/
theorem b64Index_b64Char {n : Nat} (h : n < 64) :
    b64Index (b64Char n) = some n :=
  (by decide : ∀ m, m < 64 → b64Index (b64Char m) = some m) n h

/-- No base64 digit is the padding character. -/
theorem b64Char_ne_pad (n : Nat) : b64Char n ≠ '=' := by
  by_cases h : n < 64
  · exact (by decide : ∀ m, m < 64 → b64Char m ≠ '=') n h
  · unfold b64Char
    rw [List.getD_eq_default]
    · decide
    · have hlen : base64Alphabet.length = 64 := by decide
      omega

/-- Appending a string to an explicit character list concatenates the
underlying lists. -/
theorem mk_append_data (l : List Char) (t : String) :
    (String.mk l ++ t).data = l ++ t.data := by
  cases t
  rfl

/-- Decoding inverts encoding: `base64Encode` is injective and its
output determines the original byte list. -/
theorem base64_decode_encode : ∀ bs : List (Fin 256),
    base64DecodeChars (base64Encode bs).data = some bs
  | [] => rfl
  | [⟨v1, h1⟩] => by
    have e1 : b64Index (b64Char (v1 / 4)) = some (v1 / 4) :=
      b64Index_b64Char (by omega)
    have e2 : b64Index (b64Char (v1 % 4 * 16)) = some (v1 % 4 * 16) :=
      b64Index_b64Char (by omega)
    show base64DecodeChars
        [b64Char (v1 / 4), b64Char (v1 % 4 * 16), '=', '='] = _
    simp only [base64DecodeChars, e1, e2]
    simp [b64Byte1, Fin.ext_iff]
    omega
  | [⟨v1, h1⟩, ⟨v2, h2⟩] => by
    have e1 : b64Index (b64Char (v1 / 4)) = some (v1 / 4) :=
      b64Index_b64Char (by omega)
    have e2 : b64Index (b64Char (v1 % 4 * 16 + v2 / 16)) =
        some (v1 % 4 * 16 + v2 / 16) := b64Index_b64Char (by omega)
    have e3 : b64Index (b64Char (v2 % 16 * 4)) = some (v2 % 16 * 4) :=
      b64Index_b64Char (by omega)
    show base64DecodeChars
        [b64Char (v1 / 4), b64Char (v1 % 4 * 16 + v2 / 16),
         b64Char (v2 % 16 * 4), '='] = _
    have n3 : b64Char (v2 % 16 * 4) = '=' ↔ False :=
      iff_false_intro (b64Char_ne_pad _)
    simp only [base64DecodeChars, e1, e2, e3]
    simp [n3, b64Byte1, b64Byte2, Fin.ext_iff]
    omega
  | ⟨v1, h1⟩ :: ⟨v2, h2⟩ :: ⟨v3, h3⟩ :: rest => by
    have ih := base64_decode_encode rest
    have e1 : b64Index (b64Char (v1 / 4)) = some (v1 / 4) :=
      b64Index_b64Char (by omega)
    have e2 : b64Index (b64Char (v1 % 4 * 16 + v2 / 16)) =
        some (v1 % 4 * 16 + v2 / 16) := b64Index_b64Char (by omega)
    have e3 : b64Index (b64Char (v2 % 16 * 4 + v3 / 64)) =
        some (v2 % 16 * 4 + v3 / 64) := b64Index_b64Char (by omega)
    have e4 : b64Index (b64Char (v3 % 64)) = some (v3 % 64) :=
      b64Index_b64Char (by omega)
    show base64DecodeChars
        ((String.mk [b64Char (v1 / 4), b64Char (v1 % 4 * 16 + v2 / 16),
          b64Char (v2 % 16 * 4 + v3 / 64), b64Char (v3 % 64)]
          ++ base64Encode rest).data) = _
    rw [mk_append_data]
    show base64DecodeChars
        (b64Char (v1 / 4) :: b64Char (v1 % 4 * 16 + v2 / 16) ::
          b64Char (v2 % 16 * 4 + v3 / 64) :: b64Char (v3 % 64) ::
          (base64Encode rest).data) = _
    have n3 : b64Char (v2 % 16 * 4 + v3 / 64) = '=' ↔ False :=
      iff_false_intro (b64Char_ne_pad _)
    have n4 : b64Char (v3 % 64) = '=' ↔ False :=
      iff_false_intro (b64Char_ne_pad _)
    simp only [base64DecodeChars, e1, e2, e3, e4, ih]
    simp [n3, n4, b64Byte1, b64Byte2, b64Byte3, Fin.ext_iff]
    omega

/-! ### Concrete instantiations of the external collaborators -/

/-- A fixed image produced by the stub pipeline. -/
def stubImg : Img := ⟨7⟩

/-- A pipeline behaviour that always succeeds with `stubImg`. -/
def stubPipe : Pipe := fun _ => .ok stubImg

/-- A PNG serializer producing a one-byte payload. -/
def stubSave : Img → List (Fin 256) := fun i => [⟨i.val % 256, Nat.mod_lt _ (by norm_num)⟩]

/-- A decoder mapping a byte list to a raw image tagged by its length. -/
def stubDecode : List (Fin 256) → Except String RawImage :=
  fun bs => .ok ⟨bs.length⟩

/-- An RGB normalizer keeping the raw image's tag. -/
def stubRGB : RawImage → Img := fun r => ⟨r.val⟩

/-! ### The claims -/

/-- C1: The spec requires that a validated request arriving before the
model handle has finished initializing (`pipe is None`) be answered
with HTTP status 503 ("model still loading"), distinguishable from a
500 generation failure.  The code does raise
`HTTPException(503, "Model is not loaded yet. ...")`, but raises it
inside a `try` block whose blanket `except Exception` catches it
(FastAPI's `HTTPException` subclasses `Exception`) and re-raises it as
a 500.  On both endpoints a validated request against an unloaded model
is therefore answered with status 500, indistinguishable from a
generation failure: the 503 never reaches the client. -/
theorem C1_not_loaded_answered_with_500 :
    api_text_to_image stubSave none (TextToImageRequest.withDefaults "A cat") =
      (.error (.httpError ⟨500,
        "Error generating image: 503: Model is not loaded yet. Please wait for the model to finish loading."⟩),
       []) ∧
    api_image_to_image stubSave stubDecode stubRGB none [⟨[0]⟩] "A cat"
        1056 1024 50 1.5 42 =
      (.error (.httpError ⟨500,
        "Error generating image: 503: Model is not loaded yet. Please wait for the model to finish loading."⟩),
       []) :=
  ⟨rfl, rfl⟩

/-- C2 counterexample: a text-to-image request with `height = -5`,
`width = 0`, `num_inference_steps = -3` and `guidance_scale = -1` is
not rejected: the handler succeeds and invokes the model once with the
non-positive values passed through unchanged, refuting the claim that
the Parameter Resolver rejects non-positive values of these fields. -/
theorem C2_counterexample_nonpositive_accepted :
    text_to_image (some stubPipe) "A cat" (-5) 0 (-3) (-1) 42 =
      (.ok stubImg, [⟨"A cat", none, -5, 0, -3, -1, some ⟨"cuda", 42⟩⟩]) :=
  rfl

/-- C2 (amended): the handlers perform no numeric validation at all: for
every request that passes the prompt check (and, for image-to-image,
the image-list check) with the model loaded, the model is called
exactly once with `height`, `width`, `num_inference_steps` and
`guidance_scale` passed through unchanged — including non-positive,
out-of-range and non-multiple-of-32 values. -/
theorem C2_numeric_passthrough (pipe : Pipe) (imgs : List Img)
    (prompt : String) (height width num_inference_steps : Int)
    (guidance_scale : Rat) (seed : Int)
    (hp : ¬ prompt_blank prompt) (hi : imgs ≠ []) :
    (text_to_image (some pipe) prompt height width num_inference_steps
        guidance_scale seed).2 =
      [⟨prompt, none, height, width, num_inference_steps, guidance_scale,
        resolve_generator seed⟩] ∧
    (image_to_image (some pipe) (some imgs) prompt height width
        num_inference_steps guidance_scale seed).2 =
      [⟨prompt, some imgs, height, width, num_inference_steps,
        guidance_scale, resolve_generator seed⟩] :=
  ⟨text_to_image_calls pipe prompt height width num_inference_steps
      guidance_scale seed hp,
   image_to_image_calls pipe imgs prompt height width num_inference_steps
      guidance_scale seed hp hi⟩

/-- Witness for C2 (amended) at a concrete non-positive input. -/
theorem C2_numeric_passthrough_witness :
    (¬ prompt_blank "A cat") ∧ ([stubImg] ≠ ([] : List Img)) ∧
    ((text_to_image (some stubPipe) "A cat" (-5) 0 (-3) (-1) 42).2 =
      [⟨"A cat", none, -5, 0, -3, -1, resolve_generator 42⟩] ∧
     (image_to_image (some stubPipe) (some [stubImg]) "A cat" (-5) 0 (-3)
        (-1) 42).2 =
      [⟨"A cat", some [stubImg], -5, 0, -3, -1, resolve_generator 42⟩]) :=
  ⟨by decide, by decide,
   C2_numeric_passthrough stubPipe [stubImg] "A cat" (-5) 0 (-3) (-1) 42
     (by decide) (by decide)⟩

/-- C3: with a loaded model and validated inputs, each handler makes
exactly one model call, whose generator argument is: for `seed ≥ 0`, a
deterministic generator seeded exactly with `seed` and bound to the
model's compute device; for `seed < 0`, absent (`None`). -/
theorem C3_generator_resolution (pipe : Pipe) (imgs : List Img)
    (prompt : String) (height width num_inference_steps : Int)
    (guidance_scale : Rat) (seed : Int)
    (hp : ¬ prompt_blank prompt) (hi : imgs ≠ []) :
    (∃ c, (text_to_image (some pipe) prompt height width
        num_inference_steps guidance_scale seed).2 = [c] ∧
      c.generator =
        (if 0 ≤ seed then some ⟨model_device, seed⟩ else none)) ∧
    (∃ c, (image_to_image (some pipe) (some imgs) prompt height width
        num_inference_steps guidance_scale seed).2 = [c] ∧
      c.generator =
        (if 0 ≤ seed then some ⟨model_device, seed⟩ else none)) := by
  have hres : resolve_generator seed =
      (if 0 ≤ seed then some ⟨model_device, seed⟩ else none) := by
    unfold resolve_generator model_device
    rcases le_or_lt 0 seed with h | h
    · rw [if_pos h]
    · rw [if_neg (not_le.mpr h)]
  exact ⟨⟨_, text_to_image_calls pipe prompt height width
      num_inference_steps guidance_scale seed hp, hres⟩,
    ⟨_, image_to_image_calls pipe imgs prompt height width
      num_inference_steps guidance_scale seed hp hi, hres⟩⟩

/-- Witness for C3 at a negative and a non-negative concrete seed. -/
theorem C3_generator_resolution_witness :
    (¬ prompt_blank "A cat") ∧ ([stubImg] ≠ ([] : List Img)) ∧
    (∃ c, (text_to_image (some stubPipe) "A cat" 1024 1152 50 1.5
        (-1)).2 = [c] ∧
      c.generator =
        (if (0 : Int) ≤ -1 then some ⟨model_device, -1⟩ else none)) ∧
    (∃ c, (image_to_image (some stubPipe) (some [stubImg]) "A cat" 1056
        1024 50 1.5 42).2 = [c] ∧
      c.generator =
        (if (0 : Int) ≤ 42 then some ⟨model_device, 42⟩ else none)) :=
  ⟨by decide, by decide,
   (C3_generator_resolution stubPipe [stubImg] "A cat" 1024 1152 50 1.5
     (-1) (by decide) (by decide)).1,
   (C3_generator_resolution stubPipe [stubImg] "A cat" 1056 1024 50 1.5
     42 (by decide) (by decide)).2⟩

/-- C4: a text-to-image request that omits all optional fields resolves
to `height=1024, width=1152, num_inference_steps=50,
guidance_scale=1.5, seed=42` (the seed becoming a generator seeded with
42), and an image-to-image request that omits all optional form fields
resolves to `height=1056, width=1024, num_inference_steps=50,
guidance_scale=1.5, seed=42`: the height/width defaults differ by
variant. -/
theorem C4_default_resolution (pngSave : Img → List (Fin 256))
    (decode : List (Fin 256) → Except String RawImage)
    (toRGB : RawImage → Img) (pipe : Pipe) (files : List UploadFile)
    (imgs : List Img) (prompt : String) (hp : ¬ prompt_blank prompt)
    (hd : process_files decode toRGB files = .ok imgs) (hi : imgs ≠ []) :
    (api_text_to_image pngSave (some pipe)
        (TextToImageRequest.withDefaults prompt)).2 =
      [⟨prompt, none, 1024, 1152, 50, 1.5, some ⟨"cuda", 42⟩⟩] ∧
    (api_image_to_image_withDefaults pngSave decode toRGB (some pipe)
        files prompt).2 =
      [⟨prompt, some imgs, 1056, 1024, 50, 1.5, some ⟨"cuda", 42⟩⟩] := by
  constructor
  · unfold api_text_to_image
    rw [apiWrap_snd]
    simp only [TextToImageRequest.withDefaults]
    rw [text_to_image_calls _ _ _ _ _ _ _ hp]
    norm_num [resolve_generator]
  · unfold api_image_to_image_withDefaults
    rw [api_image_to_image_of_decoded _ _ _ _ _ _ _ _ _ _ _ _ hd]
    rw [apiWrap_snd]
    rw [image_to_image_calls _ _ _ _ _ _ _ _ hp hi]
    norm_num [resolve_generator]

/-- Witness for C4 at a concrete request and upload list. -/
theorem C4_default_resolution_witness :
    (¬ prompt_blank "A cat") ∧
    (process_files stubDecode stubRGB [⟨[5]⟩] = .ok [⟨1⟩]) ∧
    (([⟨1⟩] : List Img) ≠ []) ∧
    ((api_text_to_image stubSave (some stubPipe)
        (TextToImageRequest.withDefaults "A cat")).2 =
      [⟨"A cat", none, 1024, 1152, 50, 1.5, some ⟨"cuda", 42⟩⟩] ∧
     (api_image_to_image_withDefaults stubSave stubDecode stubRGB
        (some stubPipe) [⟨[5]⟩] "A cat").2 =
      [⟨"A cat", some [⟨1⟩], 1056, 1024, 50, 1.5, some ⟨"cuda", 42⟩⟩]) :=
  ⟨by decide, rfl, by decide,
   C4_default_resolution stubSave stubDecode stubRGB stubPipe [⟨[5]⟩]
     [⟨1⟩] "A cat" (by decide) rfl (by decide)⟩

/-- A blank prompt short-circuits `api_text_to_image` to the prompt
validation error (wrapped as a 500 by the blanket handler), with no
model call. -/
theorem api_text_to_image_blank (pngSave : Img → List (Fin 256))
    (pipeOpt : Option Pipe) (req : TextToImageRequest)
    (hp : prompt_blank req.prompt) :
    api_text_to_image pngSave pipeOpt req =
      (.error (.httpError
        ⟨500, "Error generating image: Please enter a prompt"⟩), []) := by
  unfold api_text_to_image text_to_image text_to_image_body
  rw [if_pos hp]
  rfl

/-- A blank prompt with a non-empty image list short-circuits
`image_to_image` to the prompt validation error, with no model call. -/
theorem image_to_image_blank_prompt (pipeOpt : Option Pipe)
    (imgs : List Img) (prompt : String)
    (height width num_inference_steps : Int) (guidance_scale : Rat)
    (seed : Int) (hne : imgs ≠ []) (hp : prompt_blank prompt) :
    image_to_image pipeOpt (some imgs) prompt height width
        num_inference_steps guidance_scale seed =
      (.error (.httpError
        ⟨500, "Error generating image: Please enter a prompt"⟩), []) := by
  unfold image_to_image image_to_image_body
  rw [images_missing_eq_false hne]
  simp only [Bool.false_eq_true, if_false]
  rw [if_pos hp]
  rfl

/-- C5: a request of either variant whose prompt is empty or
whitespace-only is rejected with a validation error (an HTTP error
carrying status 500, as the code maps validation failures) and the
model is never invoked: the call trace is empty. -/
theorem C5_blank_prompt_rejected (pngSave : Img → List (Fin 256))
    (decode : List (Fin 256) → Except String RawImage)
    (toRGB : RawImage → Img) (pipeOpt : Option Pipe)
    (files : List UploadFile) (prompt : String)
    (height width num_inference_steps : Int) (guidance_scale : Rat)
    (seed : Int) (hp : prompt_blank prompt) :
    api_text_to_image pngSave pipeOpt
        ⟨prompt, height, width, num_inference_steps, guidance_scale, seed⟩ =
      (.error (.httpError
        ⟨500, "Error generating image: Please enter a prompt"⟩), []) ∧
    ((∃ he, (api_image_to_image pngSave decode toRGB pipeOpt files prompt
        height width num_inference_steps guidance_scale seed).1 =
          .error (.httpError he) ∧ he.status_code = 500) ∧
     (api_image_to_image pngSave decode toRGB pipeOpt files prompt height
        width num_inference_steps guidance_scale seed).2 = []) := by
  refine ⟨api_text_to_image_blank pngSave pipeOpt _ hp, ?_⟩
  rcases hpf : process_files decode toRGB files with m | imgs
  · have hape : api_image_to_image pngSave decode toRGB pipeOpt files
        prompt height width num_inference_steps guidance_scale seed =
        (.error (.httpError ⟨500, m⟩), []) := by
      unfold api_image_to_image
      rw [hpf]
    rw [hape]
    exact ⟨⟨⟨500, m⟩, rfl, rfl⟩, rfl⟩
  · have hape := api_image_to_image_of_decoded pngSave decode toRGB
      pipeOpt files imgs prompt height width num_inference_steps
      guidance_scale seed hpf
    cases imgs with
    | nil =>
      rw [hape]
      exact ⟨⟨⟨500, "Error generating image: Please upload at least one image"⟩,
        rfl, rfl⟩, rfl⟩
    | cons a rest =>
      rw [hape, image_to_image_blank_prompt pipeOpt (a :: rest) prompt
        height width num_inference_steps guidance_scale seed
        (List.cons_ne_nil a rest) hp]
      exact ⟨⟨⟨500, "Error generating image: Please enter a prompt"⟩,
        rfl, rfl⟩, rfl⟩

/-- Witness for C5 at a whitespace-only concrete prompt. -/
theorem C5_blank_prompt_rejected_witness :
    prompt_blank "   " ∧
    (api_text_to_image stubSave (some stubPipe)
        ⟨"   ", 1024, 1152, 50, 1.5, 42⟩ =
      (.error (.httpError
        ⟨500, "Error generating image: Please enter a prompt"⟩), []) ∧
     ((∃ he, (api_image_to_image stubSave stubDecode stubRGB
          (some stubPipe) [⟨[5]⟩] "   " 1056 1024 50 1.5 42).1 =
            .error (.httpError he) ∧ he.status_code = 500) ∧
      (api_image_to_image stubSave stubDecode stubRGB (some stubPipe)
          [⟨[5]⟩] "   " 1056 1024 50 1.5 42).2 = [])) :=
  ⟨by decide,
   C5_blank_prompt_rejected stubSave stubDecode stubRGB (some stubPipe)
     [⟨[5]⟩] "   " 1056 1024 50 1.5 42 (by decide)⟩

/-- C6: an image-conditioned request whose reference-image collection is
absent (`None`) or empty is rejected with a validation error and the
model is never invoked, both at the handler level and at the API level
with zero uploaded files. -/
theorem C6_empty_images_rejected (pngSave : Img → List (Fin 256))
    (decode : List (Fin 256) → Except String RawImage)
    (toRGB : RawImage → Img) (pipeOpt : Option Pipe) (prompt : String)
    (height width num_inference_steps : Int) (guidance_scale : Rat)
    (seed : Int) :
    image_to_image pipeOpt none prompt height width num_inference_steps
        guidance_scale seed =
      (.error (.httpError
        ⟨500, "Error generating image: Please upload at least one image"⟩),
       []) ∧
    image_to_image pipeOpt (some []) prompt height width
        num_inference_steps guidance_scale seed =
      (.error (.httpError
        ⟨500, "Error generating image: Please upload at least one image"⟩),
       []) ∧
    api_image_to_image pngSave decode toRGB pipeOpt [] prompt height
        width num_inference_steps guidance_scale seed =
      (.error (.httpError
        ⟨500, "Error generating image: Please upload at least one image"⟩),
       []) :=
  ⟨rfl, rfl, rfl⟩

/-- C7: on both endpoints, every failure surfaces as a structured
`HTTPException` (a status code with a human-readable detail message):
no raw `ValueError` or pipeline exception ever leaves the API surface,
for every pipeline behaviour and every decoder behaviour. -/
theorem C7_errors_structured (pngSave : Img → List (Fin 256))
    (decode : List (Fin 256) → Except String RawImage)
    (toRGB : RawImage → Img) (pipeOpt : Option Pipe)
    (req : TextToImageRequest) (files : List UploadFile)
    (prompt : String) (height width num_inference_steps : Int)
    (guidance_scale : Rat) (seed : Int) :
    (∀ e, (api_text_to_image pngSave pipeOpt req).1 = .error e →
      ∃ he, e = .httpError he) ∧
    (∀ e, (api_image_to_image pngSave decode toRGB pipeOpt files prompt
        height width num_inference_steps guidance_scale seed).1 =
        .error e → ∃ he, e = .httpError he) := by
  constructor
  · intro e h
    exact apiWrap_error_httpError pngSave _ e h
  · intro e h
    unfold api_image_to_image at h
    rcases hpf : process_files decode toRGB files with m | imgs
    · rw [hpf] at h
      simp only [Except.error.injEq] at h
      exact ⟨⟨500, m⟩, h.symm⟩
    · rw [hpf] at h
      exact apiWrap_error_httpError pngSave _ e h

/-- Witness for C7 at a concrete failing request (empty prompt). -/
theorem C7_errors_structured_witness :
    ((api_text_to_image stubSave none
        (TextToImageRequest.withDefaults "")).1 =
      .error (.httpError
        ⟨500, "Error generating image: Please enter a prompt"⟩)) ∧
    (∃ he, (PyExc.httpError
        ⟨500, "Error generating image: Please enter a prompt"⟩) =
      .httpError he) :=
  ⟨rfl,
   (C7_errors_structured stubSave stubDecode stubRGB none
       (TextToImageRequest.withDefaults "") [] "" 0 0 0 0 0).1 _ rfl⟩

/-- C8: the encoded result string returned to the client is exactly the
prefix `data:image/png;base64,` followed by the base64 encoding of the
image's PNG serialization; decoding that remainder recovers the PNG
bytes. -/
theorem C8_data_uri_format (pngSave : Img → List (Fin 256))
    (image : Img) :
    ∃ payload,
      image_to_base64 pngSave image = "data:image/png;base64," ++ payload ∧
      payload = base64Encode (pngSave image) ∧
      base64DecodeChars payload.data = some (pngSave image) :=
  ⟨base64Encode (pngSave image), rfl, rfl, base64_decode_encode _⟩

/-- C9: when the upload loop succeeds, every uploaded file has been
decoded and RGB-normalized, and upload order is preserved: the image
list has one entry per file, and its `i`-th element is the normalized
decoding of the `i`-th uploaded file. -/
theorem C9_upload_order (decode : List (Fin 256) → Except String RawImage)
    (toRGB : RawImage → Img) (files : List UploadFile) (imgs : List Img)
    (hok : process_files decode toRGB files = .ok imgs) :
    imgs.length = files.length ∧
    ∀ i : Nat, ∀ hf : i < files.length, ∀ hi : i < imgs.length,
      ∃ raw, decode ((files.get ⟨i, hf⟩).contents) = .ok raw ∧
        imgs.get ⟨i, hi⟩ = toRGB raw := by
  induction files generalizing imgs with
  | nil =>
    unfold process_files at hok
    cases hok
    exact ⟨rfl, fun i hf _ => absurd hf (Nat.not_lt_zero i)⟩
  | cons f rest ih =>
    unfold process_files at hok
    rcases hdec : decode f.contents with m | raw
    · rw [hdec] at hok
      cases hok
    · rw [hdec] at hok
      rcases hrest : process_files decode toRGB rest with m | rimgs
      · rw [hrest] at hok
        cases hok
      · rw [hrest] at hok
        simp only [Except.ok.injEq] at hok
        subst hok
        obtain ⟨hlen, hidx⟩ := ih rimgs hrest
        refine ⟨by simp [hlen], ?_⟩
        intro i hf hi
        cases i with
        | zero => exact ⟨raw, hdec, rfl⟩
        | succ n =>
          exact hidx n (Nat.lt_of_succ_lt_succ hf)
            (Nat.lt_of_succ_lt_succ hi)

/-- Witness for C9 at a concrete two-file upload. -/
theorem C9_upload_order_witness :
    process_files stubDecode stubRGB [⟨[5]⟩, ⟨[6, 7]⟩] =
      .ok [⟨1⟩, ⟨2⟩] ∧
    (([⟨1⟩, ⟨2⟩] : List Img).length =
        ([⟨[5]⟩, ⟨[6, 7]⟩] : List UploadFile).length ∧
     ∀ i : Nat,
       ∀ hf : i < ([⟨[5]⟩, ⟨[6, 7]⟩] : List UploadFile).length,
       ∀ hi : i < ([⟨1⟩, ⟨2⟩] : List Img).length,
       ∃ raw, stubDecode ((([⟨[5]⟩, ⟨[6, 7]⟩] : List UploadFile).get
           ⟨i, hf⟩).contents) = .ok raw ∧
         ([⟨1⟩, ⟨2⟩] : List Img).get ⟨i, hi⟩ = stubRGB raw) :=
  ⟨rfl, C9_upload_order stubDecode stubRGB [⟨[5]⟩, ⟨[6, 7]⟩] [⟨1⟩, ⟨2⟩] rfl⟩

/-- C10: input validation runs before the model-readiness check: with
the model handle still `None`, a blank prompt yields the prompt
validation error (not the "model not loaded" message) on both
handlers, and in the image-to-image handler the empty-image-list check
runs before the prompt check (a request failing both gets the
image-list error). -/
theorem C10_validation_precedes_readiness (pngSave : Img → List (Fin 256))
    (prompt : String) (height width num_inference_steps : Int)
    (guidance_scale : Rat) (seed : Int) (hp : prompt_blank prompt) :
    api_text_to_image pngSave none
        ⟨prompt, height, width, num_inference_steps, guidance_scale, seed⟩ =
      (.error (.httpError
        ⟨500, "Error generating image: Please enter a prompt"⟩), []) ∧
    image_to_image none (some []) prompt height width num_inference_steps
        guidance_scale seed =
      (.error (.httpError
        ⟨500, "Error generating image: Please upload at least one image"⟩),
       []) ∧
    ∀ imgs : List Img, imgs ≠ [] →
      image_to_image none (some imgs) prompt height width
          num_inference_steps guidance_scale seed =
        (.error (.httpError
          ⟨500, "Error generating image: Please enter a prompt"⟩), []) :=
  ⟨api_text_to_image_blank pngSave none _ hp, rfl,
   fun imgs hne => image_to_image_blank_prompt none imgs prompt height
     width num_inference_steps guidance_scale seed hne hp⟩

/-- Witness for C10 at a whitespace-only concrete prompt. -/
theorem C10_validation_precedes_readiness_witness :
    prompt_blank "  " ∧ ([stubImg] ≠ ([] : List Img)) ∧
    (api_text_to_image stubSave none ⟨"  ", 1056, 1024, 50, 1.5, 42⟩ =
      (.error (.httpError
        ⟨500, "Error generating image: Please enter a prompt"⟩), []) ∧
     image_to_image none (some []) "  " 1056 1024 50 1.5 42 =
      (.error (.httpError
        ⟨500, "Error generating image: Please upload at least one image"⟩),
       []) ∧
     image_to_image none (some [stubImg]) "  " 1056 1024 50 1.5 42 =
      (.error (.httpError
        ⟨500, "Error generating image: Please enter a prompt"⟩), [])) :=
  ⟨by decide, by decide,
   (C10_validation_precedes_readiness stubSave "  " 1056 1024 50 1.5 42
       (by decide)).1,
   (C10_validation_precedes_readiness stubSave "  " 1056 1024 50 1.5 42
       (by decide)).2.1,
   (C10_validation_precedes_readiness stubSave "  " 1056 1024 50 1.5 42
       (by decide)).2.2 [stubImg] (by decide)⟩

end GlmImageUI
